import Mathlib

/-!
A shallow embedding of the pricing engine of `apps/pricing-engine`
(`internal/services/pricing_service.go`, `internal/repository/repository.go`,
`internal/models/models.go`, `internal/features/flags.go`), together with
theorems settling the specification claims about it.

Modelling conventions:
* Go `float64` values are embedded as `ℚ`; every arithmetic operation the
  engine performs on them is `*`, `+` or `-`, so the algebraic structure is
  preserved exactly.
* Go `map[string]float64` tables are embedded as association lists
  `List (String × ℚ)` with `List.lookup`.  Where the source iterates over a
  map (loyalty-discount search, `GetAllRates`) the iteration order is
  irrelevant to the claims; the association-list order is a determinization.
* A `Repository` whose `NewRepository` constructor succeeded always carries a
  non-nil `pricingRules`, so the `pricingRules == nil` guard branches of the
  repository getters are unreachable and the embedding takes the loaded
  `PricingRules` value directly.
* `time.Now()` is made explicit: the month of the evaluation date is a
  parameter of `CalculateQuote`, and the generated `quoteId` / `createdAt` /
  `validUntil` fields (pure effects of `uuid.New` and `time.Now`) are omitted
  from the embedded `Quote`, which keeps exactly the computed pricing fields.
* The mutable feature flag `Flags.dynamicRates` read through
  `IsDynamicRatesEnabled` is passed as an explicit `Bool` parameter.
-/

namespace MTInsurance

/-- Embeds `models.QuoteRequest` (models.go). -/
structure QuoteRequest where
  policyType : String
  coverageAmount : Int
  customerAge : Int
  riskScore : Int
  customerID : String
  multiPolicy : Bool
  loyaltyYears : Int
  paperlessBill : Bool
  claimsHistory : Int
deriving Repr, DecidableEq

/-- Embeds `models.PolicyRates` (models.go): per-policy-type rate tables. -/
structure PolicyRates where
  base : ℚ
  coverage : List (String × ℚ)
  ageMultiplier : List (String × ℚ)
  riskMultiplier : List (String × ℚ)
deriving Repr, DecidableEq

/-- Embeds `models.Discounts` (models.go). -/
structure Discounts where
  multiPolicy : ℚ
  loyaltyYears : List (String × ℚ)
  lowRisk : ℚ
  paperlessBilling : ℚ
deriving Repr, DecidableEq

/-- Embeds `models.DynamicFactors` (models.go). -/
structure DynamicFactors where
  seasonality : List (String × ℚ)
  marketConditions : ℚ
  claimsHistory : List (String × ℚ)
deriving Repr, DecidableEq

/-- Embeds `models.DynamicPricing` (models.go). -/
structure DynamicPricing where
  enabled : Bool
  factors : DynamicFactors
deriving Repr, DecidableEq

/-- Embeds `models.PricingRules` (models.go).  The `Metadata` field is informational
only (never read by the pricing computation) and is omitted. -/
structure PricingRules where
  baseRates : List (String × PolicyRates)
  discounts : Discounts
  dynamicPricing : DynamicPricing
deriving Repr, DecidableEq

/-- Embeds `models.Factors` (models.go): the audit breakdown attached to a quote. -/
structure Factors where
  baseMultiplier : ℚ
  coverageMultiplier : ℚ
  ageMultiplier : ℚ
  riskMultiplier : ℚ
  dynamicMultiplier : ℚ
  discountAmount : ℚ
deriving Repr, DecidableEq

/-- Embeds `models.Quote` (models.go), restricted to the computed pricing fields;
`QuoteID`, `ValidUntil` and `CreatedAt` are fresh-UUID/wall-clock outputs and
are not part of the embedded state (see the header comment).  As in the
source, the `BaseRate` field of a quote holds the computed base premium. -/
structure Quote where
  policyType : String
  coverageAmount : Int
  baseRate : ℚ
  adjustedRate : ℚ
  discount : ℚ
  finalPremium : ℚ
  factors : Factors
deriving Repr, DecidableEq

/-- Embeds `models.Rate` (models.go): one entry of the `GET /rates` projection. -/
structure Rate where
  policyType : String
  baseRate : ℚ
  coverage : List (String × ℚ)
deriving Repr, DecidableEq

/-! ## Repository (repository.go) -/

/-- Embeds `Repository.GetBaseRateForPolicy` (repository.go): the base rate for a
policy type, or an error when the policy type has no `baseRates` entry. -/
def GetBaseRateForPolicy (rules : PricingRules) (policyType : String) :
    Except String ℚ :=
  match rules.baseRates.lookup policyType with
  | none => .error ("policy type " ++ policyType ++ " not found")
  | some rates => .ok rates.base

/-- Embeds `Repository.GetCoverageMultiplier` (repository.go): exact-match lookup of
the coverage amount, formatted with `%d`, in the coverage table; a miss
returns the default multiplier 1.0. -/
def GetCoverageMultiplier (rules : PricingRules) (policyType : String)
    (coverageAmount : Int) : Except String ℚ :=
  match rules.baseRates.lookup policyType with
  | none => .error ("policy type " ++ policyType ++ " not found")
  | some rates =>
    match rates.coverage.lookup (toString coverageAmount) with
    | none => .ok 1
    | some multiplier => .ok multiplier

/-- The age-bracket switch inside `Repository.GetAgeMultiplier`
(repository.go): ages below 18 fall through to the `default` branch, which
returns the multiplier 1.0 directly (modelled as `none` here). -/
def ageRangeOf (age : Int) : Option String :=
  if 18 ≤ age ∧ age ≤ 24 then some "18-24"
  else if 25 ≤ age ∧ age ≤ 34 then some "25-34"
  else if 35 ≤ age ∧ age ≤ 49 then some "35-49"
  else if 50 ≤ age ∧ age ≤ 64 then some "50-64"
  else if 65 ≤ age then some "65+"
  else none

/-- The `altRanges` literal inside `Repository.GetAgeMultiplier`
(repository.go), consulted only for `home` policies. -/
def altRanges : List (String × String) :=
  [("18-24", "18-34"), ("25-34", "18-34")]

/-- Embeds `Repository.GetAgeMultiplier` (repository.go). -/
def GetAgeMultiplier (rules : PricingRules) (policyType : String)
    (age : Int) : Except String ℚ :=
  match rules.baseRates.lookup policyType with
  | none => .error ("policy type " ++ policyType ++ " not found")
  | some rates =>
    match ageRangeOf age with
    | none => .ok 1
    | some ageRange =>
      match rates.ageMultiplier.lookup ageRange with
      | some multiplier => .ok multiplier
      | none =>
        if policyType == "home" then
          match altRanges.lookup ageRange with
          | some altRange =>
            match rates.ageMultiplier.lookup altRange with
            | some multiplier => .ok multiplier
            | none => .ok 1
          | none => .ok 1
        else .ok 1

/-- Embeds `Repository.GetRiskMultiplier` (repository.go). -/
def GetRiskMultiplier (rules : PricingRules) (policyType : String)
    (riskScore : Int) : Except String ℚ :=
  match rules.baseRates.lookup policyType with
  | none => .error ("policy type " ++ policyType ++ " not found")
  | some rates =>
    match rates.riskMultiplier.lookup (toString riskScore) with
    | none => .ok 1
    | some multiplier => .ok multiplier

/-- Embeds `Repository.GetAllRates` (repository.go): the `make`/`append` loop over
`baseRates`, embedded as a left fold appending one `Rate` per entry. -/
def GetAllRates (rules : PricingRules) : List Rate :=
  rules.baseRates.foldl
    (fun rates p =>
      rates ++ [{ policyType := p.1, baseRate := p.2.base, coverage := p.2.coverage }])
    []

/-! ## Pricing service (pricing_service.go) -/

/-- Embeds `validateRequest` (pricing_service.go): `none` for a valid request, or
the first violated rule's error message. -/
def validateRequest (req : QuoteRequest) : Option String :=
  if req.policyType ≠ "auto" ∧ req.policyType ≠ "home" ∧ req.policyType ≠ "life" then
    some ("invalid policy type: " ++ req.policyType ++ " (must be auto, home, or life)")
  else if req.coverageAmount ≤ 0 then
    some "coverage amount must be greater than 0"
  else if req.customerAge < 18 ∨ req.customerAge > 120 then
    some "customer age must be between 18 and 120"
  else if req.riskScore < 1 ∨ req.riskScore > 5 then
    some "risk score must be between 1 and 5"
  else none

/-- Embeds `getCurrentQuarter` (pricing_service.go), with the month of
`time.Now()` made an explicit parameter (Go months are 1–12). -/
def getCurrentQuarter (month : ℕ) : String :=
  if 1 ≤ month ∧ month ≤ 3 then "Q1"
  else if 4 ≤ month ∧ month ≤ 6 then "Q2"
  else if 7 ≤ month ∧ month ≤ 9 then "Q3"
  else "Q4"

/-- Embeds `getClaimsHistoryKey` (pricing_service.go): the `default` switch branch
sends every count other than 0, 1, 2 — negative counts included — to "3+". -/
def getClaimsHistoryKey (claims : Int) : String :=
  if claims = 0 then "0"
  else if claims = 1 then "1"
  else if claims = 2 then "2"
  else "3+"

/-- Embeds `calculateDynamicMultiplier` (pricing_service.go).  `GetDynamicPricing`
on a loaded repository returns the configuration's `dynamicPricing` field
(never nil), so only its `Enabled` guard remains. -/
def calculateDynamicMultiplier (rules : PricingRules) (month : ℕ)
    (req : QuoteRequest) : ℚ :=
  let dp := rules.dynamicPricing
  if !dp.enabled then 1
  else
    let m0 : ℚ := 1
    let m1 :=
      match dp.factors.seasonality.lookup (getCurrentQuarter month) with
      | some seasonalityFactor => m0 * seasonalityFactor
      | none => m0
    let m2 := m1 * dp.factors.marketConditions
    let m3 :=
      match dp.factors.claimsHistory.lookup (getClaimsHistoryKey req.claimsHistory) with
      | some claimsFactor => m2 * claimsFactor
      | none => m2
    m3

/-- The `fmt.Sscanf(yearsStr, "%d", &requiredYears)` call of
`getLoyaltyDiscount` (pricing_service.go): skip leading spaces, read an
optional sign and a run of decimal digits; when no digit matches the scanned
variable keeps its zero value (the error is ignored in the source). -/
def goScanInt (s : String) : Int :=
  let cs := s.toList.dropWhile (fun c => c = ' ')
  let signAndRest : Int × List Char :=
    match cs with
    | '-' :: rest => (-1, rest)
    | '+' :: rest => (1, rest)
    | rest => (1, rest)
  let digits := signAndRest.2.takeWhile (fun c => c.isDigit)
  if digits = [] then 0
  else signAndRest.1 *
    (digits.foldl (fun acc c => acc * 10 + ((c.toNat - 48 : ℕ) : Int)) 0)

/-- Embeds `getLoyaltyDiscount` (pricing_service.go): scan every configured loyalty
threshold and keep the highest fraction whose threshold the customer's years
meet or exceed, starting from 0.0.  The Go map iteration order does not
affect the result (it is a maximum); the list order is a determinization. -/
def getLoyaltyDiscount (years : Int) (discounts : Discounts) : ℚ :=
  discounts.loyaltyYears.foldl
    (fun applicableDiscount p =>
      let requiredYears := goScanInt p.1
      if years ≥ requiredYears ∧ p.2 > applicableDiscount then p.2
      else applicableDiscount)
    0

/-- Embeds `calculateDiscount` (pricing_service.go).  `GetDiscounts` on a loaded
repository returns the configuration's `discounts` field (never nil), so the
nil guard is dropped. -/
def calculateDiscount (discounts : Discounts) (req : QuoteRequest)
    (adjustedRate : ℚ) : ℚ :=
  let t0 : ℚ := 0
  let t1 := if req.multiPolicy then t0 + adjustedRate * discounts.multiPolicy else t0
  let t2 :=
    if req.loyaltyYears > 0 then
      t1 + adjustedRate * getLoyaltyDiscount req.loyaltyYears discounts
    else t1
  let t3 := if req.riskScore = 1 then t2 + adjustedRate * discounts.lowRisk else t2
  let t4 := if req.paperlessBill then t3 + adjustedRate * discounts.paperlessBilling else t3
  t4

/-- Embeds `CalculateQuote` (pricing_service.go): validation, the four rate-table
resolutions, the dynamic multiplier (guarded by the `dynamicRates` feature
flag), discount stacking and the final premium.  `flag` is the value
`IsDynamicRatesEnabled` returns and `month` the month of `time.Now()`. -/
def CalculateQuote (rules : PricingRules) (flag : Bool) (month : ℕ)
    (req : QuoteRequest) : Except String Quote :=
  match validateRequest req with
  | some e => .error e
  | none =>
  match GetBaseRateForPolicy rules req.policyType with
  | .error e => .error ("failed to get base rate: " ++ e)
  | .ok baseRate =>
  match GetCoverageMultiplier rules req.policyType req.coverageAmount with
  | .error e => .error ("failed to get coverage multiplier: " ++ e)
  | .ok coverageMultiplier =>
  match GetAgeMultiplier rules req.policyType req.customerAge with
  | .error e => .error ("failed to get age multiplier: " ++ e)
  | .ok ageMultiplier =>
  match GetRiskMultiplier rules req.policyType req.riskScore with
  | .error e => .error ("failed to get risk multiplier: " ++ e)
  | .ok riskMultiplier =>
  let basePremium := baseRate * coverageMultiplier * ageMultiplier * riskMultiplier
  let dynamicMultiplier :=
    if flag then calculateDynamicMultiplier rules month req else 1
  let adjustedRate := basePremium * dynamicMultiplier
  let discount := calculateDiscount rules.discounts req adjustedRate
  let finalPremium := adjustedRate - discount
  .ok
    { policyType := req.policyType
      coverageAmount := req.coverageAmount
      baseRate := basePremium
      adjustedRate := adjustedRate
      discount := discount
      finalPremium := finalPremium
      factors :=
        { baseMultiplier := baseRate
          coverageMultiplier := coverageMultiplier
          ageMultiplier := ageMultiplier
          riskMultiplier := riskMultiplier
          dynamicMultiplier := dynamicMultiplier
          discountAmount := discount } }

/-! ## Derived closed forms

These are not new source functions: each is proved equal (below) to the
corresponding branch-structured embedding above and only serves to state
theorems without `match` expressions. -/

/-- Closed form of the body of `GetAgeMultiplier` once the policy-type entry
`pr` has been found (proved equal in `GetAgeMultiplier_eq`). -/
def ageMultiplierValue (policyType : String) (pr : PolicyRates) (age : Int) : ℚ :=
  match ageRangeOf age with
  | none => 1
  | some ageRange =>
    match pr.ageMultiplier.lookup ageRange with
    | some multiplier => multiplier
    | none =>
      if policyType == "home" then
        match altRanges.lookup ageRange with
        | some altRange => (pr.ageMultiplier.lookup altRange).getD 1
        | none => 1
      else 1

/-- Closed form of the quote `CalculateQuote` produces for a valid request
whose policy type resolves to the entry `pr` (proved equal in
`calculateQuote_ok`). -/
def quoteValue (rules : PricingRules) (flag : Bool) (month : ℕ)
    (req : QuoteRequest) (pr : PolicyRates) : Quote :=
  let ageMult := ageMultiplierValue req.policyType pr req.customerAge
  let covMult := (pr.coverage.lookup (toString req.coverageAmount)).getD 1
  let riskMult := (pr.riskMultiplier.lookup (toString req.riskScore)).getD 1
  let basePremium := pr.base * covMult * ageMult * riskMult
  let dynamicMultiplier :=
    if flag then calculateDynamicMultiplier rules month req else 1
  let adjustedRate := basePremium * dynamicMultiplier
  let discount := calculateDiscount rules.discounts req adjustedRate
  { policyType := req.policyType
    coverageAmount := req.coverageAmount
    baseRate := basePremium
    adjustedRate := adjustedRate
    discount := discount
    finalPremium := adjustedRate - discount
    factors :=
      { baseMultiplier := pr.base
        coverageMultiplier := covMult
        ageMultiplier := ageMult
        riskMultiplier := riskMult
        dynamicMultiplier := dynamicMultiplier
        discountAmount := discount } }

/-! ## Specification-side definitions (for the refinement-style claims)

These follow the words of the specification, to be compared with the
embedded source functions. -/

/-- From the spec (§4.4 step 5): the highest configured fraction among all
loyalty thresholds the customer's years meet or exceed; 0 when no threshold
applies. -/
def bestLoyaltyFraction (years : Int) (loyaltyTable : List (String × ℚ)) : ℚ :=
  ((loyaltyTable.filter (fun p => goScanInt p.1 ≤ years)).map (fun p => p.2)).foldr
    max 0

/-- From the spec (§4.4 step 5, §8): the plain sum of the four independent
applicable discount fractions. -/
def applicableFractionSum (discounts : Discounts) (req : QuoteRequest) : ℚ :=
  (if req.multiPolicy then discounts.multiPolicy else 0)
    + bestLoyaltyFraction req.loyaltyYears discounts.loyaltyYears
    + (if req.riskScore = 1 then discounts.lowRisk else 0)
    + (if req.paperlessBill then discounts.paperlessBilling else 0)

/-! ## Concrete configurations and requests used by witnesses and
counterexamples -/

/-- A small `auto` rate table. -/
def prW : PolicyRates :=
  { base := 100
    coverage := [("100", 2)]
    ageMultiplier := [("35-49", 1)]
    riskMultiplier := [("2", 1)] }

/-- A `home` rate table whose five-bracket keys are missing but whose
combined "18-34" key is present. -/
def prHome : PolicyRates :=
  { base := 500
    coverage := []
    ageMultiplier := [("18-34", mkRat 7 5), ("35-49", 1)]
    riskMultiplier := [] }

/-- A discount schedule aggressive enough to push the final premium
negative. -/
def discountsW : Discounts :=
  { multiPolicy := mkRat 3 5
    loyaltyYears := [("1", mkRat 1 2)]
    lowRisk := mkRat 1 2
    paperlessBilling := mkRat 1 2 }

/-- The loyalty schedule used as the worked example in the spec (§8):
thresholds {1: 0.0, 2: 0.05, 3: 0.08, 5: 0.12, 10: 0.18}. -/
def discountsLoyal : Discounts :=
  { multiPolicy := mkRat 1 10
    loyaltyYears :=
      [("1", 0), ("2", mkRat 1 20), ("3", mkRat 2 25), ("5", mkRat 3 25),
        ("10", mkRat 9 50)]
    lowRisk := mkRat 1 20
    paperlessBilling := mkRat 1 50 }

/-- An all-zero discount schedule. -/
def discountsZero : Discounts :=
  { multiPolicy := 0, loyaltyYears := [], lowRisk := 0, paperlessBilling := 0 }

/-- A configuration with dynamic pricing disabled and stacked discounts. -/
def rulesW : PricingRules :=
  { baseRates := [("auto", prW), ("home", prHome)]
    discounts := discountsW
    dynamicPricing :=
      { enabled := false
        factors := { seasonality := [], marketConditions := 1, claimsHistory := [] } } }

/-- A configuration with dynamic pricing enabled and all three factor
tables populated. -/
def rulesDyn : PricingRules :=
  { baseRates := [("auto", prW)]
    discounts := discountsZero
    dynamicPricing :=
      { enabled := true
        factors :=
          { seasonality := [("Q1", 2)]
            marketConditions := 3
            claimsHistory := [("0", 5)] } } }

/-- An `auto` rate table with no multiplier tiers configured. -/
def prCx : PolicyRates :=
  { base := 100, coverage := [], ageMultiplier := [], riskMultiplier := [] }

/-- A configuration whose seasonality factor differs between Q1 and the
(absent) other quarters. -/
def rulesCx : PricingRules :=
  { baseRates := [("auto", prCx)]
    discounts := discountsZero
    dynamicPricing :=
      { enabled := true
        factors := { seasonality := [("Q1", 2)], marketConditions := 1, claimsHistory := [] } } }

/-- A valid request that stacks all four discounts. -/
def reqW : QuoteRequest :=
  { policyType := "auto"
    coverageAmount := 100
    customerAge := 40
    riskScore := 2
    customerID := ""
    multiPolicy := true
    loyaltyYears := 2
    paperlessBill := true
    claimsHistory := 0 }

/-- A valid request with seven loyalty years and no other discount. -/
def reqLoyal : QuoteRequest :=
  { policyType := "auto"
    coverageAmount := 100
    customerAge := 40
    riskScore := 2
    customerID := ""
    multiPolicy := false
    loyaltyYears := 7
    paperlessBill := false
    claimsHistory := 0 }

/-- A minimal valid request with no optional rating inputs. -/
def reqCx : QuoteRequest :=
  { policyType := "auto"
    coverageAmount := 1
    customerAge := 30
    riskScore := 2
    customerID := ""
    multiPolicy := false
    loyaltyYears := 0
    paperlessBill := false
    claimsHistory := 0 }

/-- A request rejected by validation: customer age 17. -/
def reqAge17 : QuoteRequest :=
  { reqW with customerAge := 17 }

/-- A valid `home` request whose age falls in the 25–34 bracket. -/
def reqHome30 : QuoteRequest :=
  { policyType := "home"
    coverageAmount := 1
    customerAge := 30
    riskScore := 2
    customerID := ""
    multiPolicy := false
    loyaltyYears := 0
    paperlessBill := false
    claimsHistory := 0 }

/-! ## Helper lemmas about the resolvers -/

theorem GetBaseRateForPolicy_eq {rules : PricingRules} {policyType : String}
    {pr : PolicyRates} (h : rules.baseRates.lookup policyType = some pr) :
    GetBaseRateForPolicy rules policyType = .ok pr.base := by
  simp [GetBaseRateForPolicy, h]

theorem GetBaseRateForPolicy_ok_iff {rules : PricingRules} {policyType : String}
    {b : ℚ} (h : GetBaseRateForPolicy rules policyType = .ok b) :
    ∃ pr, rules.baseRates.lookup policyType = some pr ∧ pr.base = b := by
  unfold GetBaseRateForPolicy at h
  cases hl : rules.baseRates.lookup policyType with
  | none => rw [hl] at h; exact absurd h (by simp)
  | some pr =>
    rw [hl] at h
    exact ⟨pr, rfl, by simpa using h⟩

theorem GetCoverageMultiplier_eq {rules : PricingRules} {policyType : String}
    {pr : PolicyRates} (h : rules.baseRates.lookup policyType = some pr)
    (coverageAmount : Int) :
    GetCoverageMultiplier rules policyType coverageAmount =
      .ok ((pr.coverage.lookup (toString coverageAmount)).getD 1) := by
  simp only [GetCoverageMultiplier, h]
  cases hc : pr.coverage.lookup (toString coverageAmount) <;> simp [hc]

theorem GetRiskMultiplier_eq {rules : PricingRules} {policyType : String}
    {pr : PolicyRates} (h : rules.baseRates.lookup policyType = some pr)
    (riskScore : Int) :
    GetRiskMultiplier rules policyType riskScore =
      .ok ((pr.riskMultiplier.lookup (toString riskScore)).getD 1) := by
  simp only [GetRiskMultiplier, h]
  cases hc : pr.riskMultiplier.lookup (toString riskScore) <;> simp [hc]

theorem GetAgeMultiplier_eq {rules : PricingRules} {policyType : String}
    {pr : PolicyRates} (h : rules.baseRates.lookup policyType = some pr)
    (age : Int) :
    GetAgeMultiplier rules policyType age =
      .ok (ageMultiplierValue policyType pr age) := by
  rcases har : ageRangeOf age with _ | ageRange
  · simp [GetAgeMultiplier, ageMultiplierValue, h, har]
  rcases hm : pr.ageMultiplier.lookup ageRange with _ | m
  · by_cases hh : policyType == "home"
    · rcases halt : altRanges.lookup ageRange with _ | altRange
      · simp [GetAgeMultiplier, ageMultiplierValue, h, har, hm, hh, halt]
      · rcases hma : pr.ageMultiplier.lookup altRange with _ | m2 <;>
          simp [GetAgeMultiplier, ageMultiplierValue, h, har, hm, hh, halt, hma]
    · simp [GetAgeMultiplier, ageMultiplierValue, h, har, hm, hh]
  · simp [GetAgeMultiplier, ageMultiplierValue, h, har, hm]

theorem calculateQuote_ok {rules : PricingRules} {flag : Bool} {month : ℕ}
    {req : QuoteRequest} {pr : PolicyRates}
    (hv : validateRequest req = none)
    (hb : rules.baseRates.lookup req.policyType = some pr) :
    CalculateQuote rules flag month req = .ok (quoteValue rules flag month req pr) := by
  simp only [CalculateQuote, hv, GetBaseRateForPolicy_eq hb,
    GetCoverageMultiplier_eq hb req.coverageAmount,
    GetAgeMultiplier_eq hb req.customerAge,
    GetRiskMultiplier_eq hb req.riskScore, quoteValue]

theorem calculateQuote_validation_error {rules : PricingRules} {flag : Bool}
    {month : ℕ} {req : QuoteRequest} {e : String}
    (hv : validateRequest req = some e) :
    CalculateQuote rules flag month req = .error e := by
  simp only [CalculateQuote, hv]

theorem calculateQuote_base_error {rules : PricingRules} {flag : Bool}
    {month : ℕ} {req : QuoteRequest}
    (hv : validateRequest req = none)
    (hb : rules.baseRates.lookup req.policyType = none) :
    CalculateQuote rules flag month req =
      .error ("failed to get base rate: " ++ ("policy type " ++ req.policyType ++ " not found")) := by
  simp only [CalculateQuote, hv, GetBaseRateForPolicy, hb]

theorem calculateDynamicMultiplier_enabled {rules : PricingRules} {month : ℕ}
    {req : QuoteRequest} (h : rules.dynamicPricing.enabled = true) :
    calculateDynamicMultiplier rules month req =
      ((rules.dynamicPricing.factors.seasonality.lookup (getCurrentQuarter month)).getD 1)
        * rules.dynamicPricing.factors.marketConditions
        * ((rules.dynamicPricing.factors.claimsHistory.lookup
            (getClaimsHistoryKey req.claimsHistory)).getD 1) := by
  simp only [calculateDynamicMultiplier, h, Bool.not_true, Bool.false_eq_true,
    if_false]
  cases hs : rules.dynamicPricing.factors.seasonality.lookup (getCurrentQuarter month) <;>
    cases hc : rules.dynamicPricing.factors.claimsHistory.lookup
      (getClaimsHistoryKey req.claimsHistory) <;>
    simp [hs, hc]

theorem calculateDynamicMultiplier_disabled {rules : PricingRules} {month : ℕ}
    {req : QuoteRequest} (h : rules.dynamicPricing.enabled = false) :
    calculateDynamicMultiplier rules month req = 1 := by
  simp [calculateDynamicMultiplier, h]

theorem foldr_max_nonneg (l : List ℚ) : 0 ≤ l.foldr max 0 := by
  induction l with
  | nil => exact le_refl 0
  | cons x l ih => exact le_trans ih (le_max_right x _)

theorem getLoyaltyDiscount_foldl_eq (years : Int) (l : List (String × ℚ))
    (acc : ℚ) (hacc : 0 ≤ acc) :
    l.foldl
      (fun applicableDiscount p =>
        let requiredYears := goScanInt p.1
        if years ≥ requiredYears ∧ p.2 > applicableDiscount then p.2
        else applicableDiscount)
      acc
      = max acc
          (((l.filter (fun p => goScanInt p.1 ≤ years)).map (fun p => p.2)).foldr
            max 0) := by
  induction l generalizing acc with
  | nil => simp [max_eq_left hacc]
  | cons p l ih =>
    by_cases hp : goScanInt p.1 ≤ years
    · have hstep :
          (let requiredYears := goScanInt p.1
           if years ≥ requiredYears ∧ p.2 > acc then p.2 else acc) = max acc p.2 := by
        by_cases h2 : p.2 > acc
        · simp [hp, h2, max_eq_right h2.le]
        · simp [h2, max_eq_left (not_lt.mp h2)]
      rw [List.foldl_cons, hstep, ih (max acc p.2) (le_trans hacc (le_max_left _ _))]
      have hfilter :
          (p :: l).filter (fun q => goScanInt q.1 ≤ years)
            = p :: l.filter (fun q => goScanInt q.1 ≤ years) := by
        simp [List.filter_cons, hp]
      rw [hfilter, List.map_cons, List.foldr_cons, ← max_assoc]
    · have hstep :
          (let requiredYears := goScanInt p.1
           if years ≥ requiredYears ∧ p.2 > acc then p.2 else acc) = acc := by
        simp [ge_iff_le, hp]
      have hfilter :
          (p :: l).filter (fun q => goScanInt q.1 ≤ years)
            = l.filter (fun q => goScanInt q.1 ≤ years) := by
        simp [List.filter_cons, hp]
      rw [List.foldl_cons, hstep, ih acc hacc, hfilter]

theorem getLoyaltyDiscount_eq (years : Int) (discounts : Discounts) :
    getLoyaltyDiscount years discounts
      = bestLoyaltyFraction years discounts.loyaltyYears := by
  unfold getLoyaltyDiscount bestLoyaltyFraction
  rw [getLoyaltyDiscount_foldl_eq years discounts.loyaltyYears 0 le_rfl]
  exact max_eq_right (foldr_max_nonneg _)

theorem bestLoyaltyFraction_eq_zero {years : Int} {l : List (String × ℚ)}
    (h1 : ∀ p ∈ l, 1 ≤ goScanInt p.1) (hy : years ≤ 0) :
    bestLoyaltyFraction years l = 0 := by
  unfold bestLoyaltyFraction
  have hfilter : l.filter (fun p => goScanInt p.1 ≤ years) = [] := by
    apply List.filter_eq_nil_iff.mpr
    intro p hp
    have := h1 p hp
    simp only [decide_eq_true_eq]
    omega
  rw [hfilter]
  rfl

theorem getAllRates_foldl_eq (l : List (String × PolicyRates)) (acc : List Rate) :
    l.foldl
      (fun rates p =>
        rates ++ [{ policyType := p.1, baseRate := p.2.base, coverage := p.2.coverage }])
      acc
      = acc
          ++ l.map
            (fun p => { policyType := p.1, baseRate := p.2.base, coverage := p.2.coverage }) := by
  induction l generalizing acc with
  | nil => simp
  | cons p l ih => simp [ih]

theorem calculateDiscount_linear (discounts : Discounts) (req : QuoteRequest)
    (adjustedRate : ℚ) :
    calculateDiscount discounts req adjustedRate
      = (if req.multiPolicy then adjustedRate * discounts.multiPolicy else 0)
        + (if req.loyaltyYears > 0 then
            adjustedRate * getLoyaltyDiscount req.loyaltyYears discounts
          else 0)
        + (if req.riskScore = 1 then adjustedRate * discounts.lowRisk else 0)
        + (if req.paperlessBill then adjustedRate * discounts.paperlessBilling else 0) := by
  unfold calculateDiscount
  by_cases h1 : req.multiPolicy <;> by_cases h2 : req.loyaltyYears > 0 <;>
    by_cases h3 : req.riskScore = 1 <;> by_cases h4 : req.paperlessBill <;>
    simp [h1, h2, h3, h4]

theorem calculateDiscount_eq (discounts : Discounts) (req : QuoteRequest)
    (adjustedRate : ℚ)
    (h1 : ∀ p ∈ discounts.loyaltyYears, 1 ≤ goScanInt p.1) :
    calculateDiscount discounts req adjustedRate
      = adjustedRate * applicableFractionSum discounts req := by
  rw [calculateDiscount_linear]
  unfold applicableFractionSum
  have hloyal :
      (if req.loyaltyYears > 0 then
         adjustedRate * getLoyaltyDiscount req.loyaltyYears discounts
       else 0)
        = adjustedRate * bestLoyaltyFraction req.loyaltyYears discounts.loyaltyYears := by
    by_cases hl : req.loyaltyYears > 0
    · simp [hl, getLoyaltyDiscount_eq]
    · rw [if_neg hl, bestLoyaltyFraction_eq_zero h1 (by omega), mul_zero]
  rw [hloyal]
  by_cases h2 : req.multiPolicy <;> by_cases h3 : req.riskScore = 1 <;>
    by_cases h4 : req.paperlessBill <;> simp [h2, h3, h4] <;> ring

theorem calculateDynamicMultiplier_quarter_eq (rules : PricingRules)
    (req : QuoteRequest) (m1 m2 : ℕ)
    (hq : getCurrentQuarter m1 = getCurrentQuarter m2) :
    calculateDynamicMultiplier rules m1 req = calculateDynamicMultiplier rules m2 req := by
  simp only [calculateDynamicMultiplier, hq]

/-! ## Claim theorems -/

/-- C1: For every request that passes validation and whose policy type has a
base-rate entry, `CalculateQuote` computes
basePremium = baseRate × coverageMultiplier × ageMultiplier × riskMultiplier,
adjustedRate = basePremium × dynamicMultiplier, and
finalPremium = adjustedRate − totalDiscount, with no clamping to a
non-negative floor, so the final premium is negative whenever the stacked
discounts exceed the adjusted rate.  (In the embedded `Quote`, `baseRate`
holds the base premium, as in the source.) -/
theorem claim_C1 (rules : PricingRules) (flag : Bool) (month : ℕ)
    (req : QuoteRequest) (pr : PolicyRates)
    (hv : validateRequest req = none)
    (hb : rules.baseRates.lookup req.policyType = some pr) :
    ∃ q, CalculateQuote rules flag month req = .ok q
      ∧ GetBaseRateForPolicy rules req.policyType = .ok q.factors.baseMultiplier
      ∧ GetCoverageMultiplier rules req.policyType req.coverageAmount
          = .ok q.factors.coverageMultiplier
      ∧ GetAgeMultiplier rules req.policyType req.customerAge
          = .ok q.factors.ageMultiplier
      ∧ GetRiskMultiplier rules req.policyType req.riskScore
          = .ok q.factors.riskMultiplier
      ∧ q.baseRate = q.factors.baseMultiplier * q.factors.coverageMultiplier
          * q.factors.ageMultiplier * q.factors.riskMultiplier
      ∧ q.adjustedRate = q.baseRate * q.factors.dynamicMultiplier
      ∧ q.discount = calculateDiscount rules.discounts req q.adjustedRate
      ∧ q.finalPremium = q.adjustedRate - q.discount
      ∧ (q.adjustedRate < q.discount → q.finalPremium < 0) := by
  refine ⟨quoteValue rules flag month req pr, calculateQuote_ok hv hb,
    ?_, ?_, ?_, ?_, ?_, ?_, ?_, ?_, ?_⟩ <;>
    simp only [quoteValue, GetBaseRateForPolicy_eq hb,
      GetCoverageMultiplier_eq hb req.coverageAmount,
      GetAgeMultiplier_eq hb req.customerAge,
      GetRiskMultiplier_eq hb req.riskScore]
  intro h
  linarith

/-- Witness for C1 at a concrete configuration where the stacked discounts
exceed the adjusted rate, so the final premium is negative. -/
theorem claim_C1_witness :
    validateRequest reqW = none
    ∧ rulesW.baseRates.lookup reqW.policyType = some prW
    ∧ (∃ q, CalculateQuote rulesW false 1 reqW = .ok q
        ∧ GetBaseRateForPolicy rulesW reqW.policyType = .ok q.factors.baseMultiplier
        ∧ GetCoverageMultiplier rulesW reqW.policyType reqW.coverageAmount
            = .ok q.factors.coverageMultiplier
        ∧ GetAgeMultiplier rulesW reqW.policyType reqW.customerAge
            = .ok q.factors.ageMultiplier
        ∧ GetRiskMultiplier rulesW reqW.policyType reqW.riskScore
            = .ok q.factors.riskMultiplier
        ∧ q.baseRate = q.factors.baseMultiplier * q.factors.coverageMultiplier
            * q.factors.ageMultiplier * q.factors.riskMultiplier
        ∧ q.adjustedRate = q.baseRate * q.factors.dynamicMultiplier
        ∧ q.discount = calculateDiscount rulesW.discounts reqW q.adjustedRate
        ∧ q.finalPremium = q.adjustedRate - q.discount
        ∧ (q.adjustedRate < q.discount → q.finalPremium < 0)) :=
  ⟨by decide, by decide, claim_C1 rulesW false 1 reqW prW (by decide) (by decide)⟩

/-- C2: For every validated request, the discount amount equals the adjusted
rate times the plain sum of the applicable fractions (never compounded):
the multi-policy fraction when `multiPolicy`, plus the best loyalty fraction
(the highest configured fraction among all loyalty thresholds at most
`loyaltyYears`), plus the low-risk fraction exactly when `riskScore = 1`,
plus the paperless fraction when `paperlessBill`; the four terms are
independent and may overlap.  The hypothesis states that every configured
loyalty threshold is a positive number of years, as in the shipped
configuration. -/
theorem claim_C2 (discounts : Discounts) (req : QuoteRequest)
    (adjustedRate : ℚ)
    (h1 : ∀ p ∈ discounts.loyaltyYears, 1 ≤ goScanInt p.1) :
    calculateDiscount discounts req adjustedRate
      = adjustedRate * applicableFractionSum discounts req :=
  calculateDiscount_eq discounts req adjustedRate h1

/-- Witness for C2 on the spec's worked loyalty schedule
{1: 0, 2: 0.05, 3: 0.08, 5: 0.12, 10: 0.18} with seven loyalty years, where
the selected fraction is 0.12. -/
theorem claim_C2_witness :
    (∀ p ∈ discountsLoyal.loyaltyYears, 1 ≤ goScanInt p.1)
    ∧ calculateDiscount discountsLoyal reqLoyal 100
        = 100 * applicableFractionSum discountsLoyal reqLoyal
    ∧ bestLoyaltyFraction 7 discountsLoyal.loyaltyYears = mkRat 3 25 :=
  ⟨by decide, claim_C2 discountsLoyal reqLoyal 100 (by decide), by
    have h : ((discountsLoyal.loyaltyYears.filter (fun p => goScanInt p.1 ≤ 7)).map
          (fun p => p.2))
        = [0, mkRat 1 20, mkRat 2 25, mkRat 3 25] := by decide
    unfold bestLoyaltyFraction
    rw [h]
    norm_num [max_def, Rat.mkRat_eq_div]⟩

/-- C3: Validation rejects with a validation error — and `CalculateQuote`
propagates exactly that error, returning no quote — precisely when the
policy type is not auto/home/life, or the coverage amount is ≤ 0, or the
customer age is outside [18, 120], or the risk score is outside [1, 5]. -/
theorem claim_C3 (req : QuoteRequest) :
    ((validateRequest req).isSome ↔
      (¬(req.policyType = "auto" ∨ req.policyType = "home" ∨ req.policyType = "life")
        ∨ req.coverageAmount ≤ 0
        ∨ req.customerAge < 18 ∨ 120 < req.customerAge
        ∨ req.riskScore < 1 ∨ 5 < req.riskScore))
    ∧ ∀ e, validateRequest req = some e →
        ∀ (rules : PricingRules) (flag : Bool) (month : ℕ),
          CalculateQuote rules flag month req = .error e := by
  constructor
  · unfold validateRequest
    split_ifs with h1 h2 h3 h4
    · simp only [Option.isSome_some, true_iff]
      tauto
    · simp only [Option.isSome_some, true_iff]
      tauto
    · simp only [Option.isSome_some, true_iff]
      tauto
    · simp only [Option.isSome_some, true_iff]
      tauto
    · simp only [Option.isSome_none, Bool.false_eq_true, false_iff]
      push_neg
      exact ⟨by tauto, by omega, by omega, by omega, by omega, by omega⟩
  · intro e he rules flag month
    exact calculateQuote_validation_error he

/-- Witness for C3 at the rejected boundary age 17: validation fails and
`CalculateQuote` surfaces the validation error verbatim. -/
theorem claim_C3_witness :
    validateRequest reqAge17 = some "customer age must be between 18 and 120"
    ∧ CalculateQuote rulesW true 1 reqAge17
        = .error "customer age must be between 18 and 120" :=
  ⟨by decide,
    (claim_C3 reqAge17).2 "customer age must be between 18 and 120" (by decide)
      rulesW true 1⟩

/-- C7: The coverage multiplier lookup is exact-match only: for every policy
type present in the configuration and every coverage amount whose string
form is not a configured tier key, the resolved coverage multiplier is
exactly 1.0 and no error is raised. -/
theorem claim_C7 (rules : PricingRules) (policyType : String)
    (pr : PolicyRates) (coverageAmount : Int)
    (hb : rules.baseRates.lookup policyType = some pr)
    (hmiss : pr.coverage.lookup (toString coverageAmount) = none) :
    GetCoverageMultiplier rules policyType coverageAmount = .ok 1 := by
  rw [GetCoverageMultiplier_eq hb coverageAmount, hmiss]
  rfl

/-- Witness for C7: coverage amount 999 is not a configured tier of the
`auto` table, so the multiplier degrades to 1. -/
theorem claim_C7_witness :
    rulesW.baseRates.lookup "auto" = some prW
    ∧ prW.coverage.lookup (toString (999 : Int)) = none
    ∧ GetCoverageMultiplier rulesW "auto" 999 = .ok 1 :=
  ⟨by decide, by decide, claim_C7 rulesW "auto" prW 999 (by decide) (by decide)⟩

/-- C4: When dynamic pricing is enabled, the dynamic multiplier is the
product (not the sum or average) of the seasonality entry for the calendar
quarter of the evaluation date, the global market-conditions scalar, and
the claims-history entry for the request's claims bucket, any missing
seasonality or claims-history entry contributing a neutral 1.0; when
`dynamicPricing.enabled` is false (or the feature flag is off) the dynamic
multiplier is 1.0 and the adjusted rate equals the base premium exactly. -/
theorem claim_C4 (rules : PricingRules) (month : ℕ) (req : QuoteRequest) :
    (rules.dynamicPricing.enabled = true →
      calculateDynamicMultiplier rules month req
        = ((rules.dynamicPricing.factors.seasonality.lookup
              (getCurrentQuarter month)).getD 1)
            * rules.dynamicPricing.factors.marketConditions
            * ((rules.dynamicPricing.factors.claimsHistory.lookup
                (getClaimsHistoryKey req.claimsHistory)).getD 1))
    ∧ (rules.dynamicPricing.enabled = false →
        calculateDynamicMultiplier rules month req = 1)
    ∧ ∀ (flag : Bool) (pr : PolicyRates),
        validateRequest req = none →
        rules.baseRates.lookup req.policyType = some pr →
        (flag = false ∨ rules.dynamicPricing.enabled = false) →
        ∃ q, CalculateQuote rules flag month req = .ok q
          ∧ q.factors.dynamicMultiplier = 1
          ∧ q.adjustedRate = q.baseRate := by
  refine ⟨calculateDynamicMultiplier_enabled, calculateDynamicMultiplier_disabled, ?_⟩
  intro flag pr hv hb hdis
  refine ⟨quoteValue rules flag month req pr, calculateQuote_ok hv hb, ?_, ?_⟩ <;>
    rcases hdis with h | h
  · simp [quoteValue, h]
  · simp [quoteValue, calculateDynamicMultiplier_disabled h]
  · simp [quoteValue, h]
  · simp [quoteValue, calculateDynamicMultiplier_disabled h]

/-- Witness for C4: a configuration with all three dynamic factor tables
populated (enabled case), and a disabled configuration under which the
adjusted rate equals the base premium. -/
theorem claim_C4_witness :
    (calculateDynamicMultiplier rulesDyn 1 reqCx
      = ((rulesDyn.dynamicPricing.factors.seasonality.lookup
            (getCurrentQuarter 1)).getD 1)
          * rulesDyn.dynamicPricing.factors.marketConditions
          * ((rulesDyn.dynamicPricing.factors.claimsHistory.lookup
              (getClaimsHistoryKey reqCx.claimsHistory)).getD 1))
    ∧ ∃ q, CalculateQuote rulesW true 1 reqW = .ok q
        ∧ q.factors.dynamicMultiplier = 1
        ∧ q.adjustedRate = q.baseRate :=
  ⟨(claim_C4 rulesDyn 1 reqCx).1 (by decide),
    (claim_C4 rulesW 1 reqW).2.2 true prW (by decide) (by decide)
      (Or.inr (by decide))⟩

/-- C5: After validation succeeds, the only possible failure in
`CalculateQuote` is a missing base-rate entry: whenever
`GetBaseRateForPolicy` does not error, the coverage, age and risk lookups
also return values (no error), and `CalculateQuote` returns a quote whose
`Factors` breakdown is fully populated with exactly those values. -/
theorem claim_C5 (rules : PricingRules) (flag : Bool) (month : ℕ)
    (req : QuoteRequest) (b : ℚ)
    (hv : validateRequest req = none)
    (hb : GetBaseRateForPolicy rules req.policyType = .ok b) :
    ∃ q cov ag rk,
      CalculateQuote rules flag month req = .ok q
      ∧ GetCoverageMultiplier rules req.policyType req.coverageAmount = .ok cov
      ∧ GetAgeMultiplier rules req.policyType req.customerAge = .ok ag
      ∧ GetRiskMultiplier rules req.policyType req.riskScore = .ok rk
      ∧ q.factors =
          { baseMultiplier := b
            coverageMultiplier := cov
            ageMultiplier := ag
            riskMultiplier := rk
            dynamicMultiplier :=
              if flag then calculateDynamicMultiplier rules month req else 1
            discountAmount := q.discount } := by
  obtain ⟨pr, hl, hbase⟩ := GetBaseRateForPolicy_ok_iff hb
  refine ⟨quoteValue rules flag month req pr, _, _, _, calculateQuote_ok hv hl,
    GetCoverageMultiplier_eq hl req.coverageAmount,
    GetAgeMultiplier_eq hl req.customerAge,
    GetRiskMultiplier_eq hl req.riskScore, ?_⟩
  simp [quoteValue, hbase]

/-- Witness for C5: on the concrete configuration, the base rate resolves
and the quote carries a fully populated factor breakdown. -/
theorem claim_C5_witness :
    validateRequest reqW = none
    ∧ GetBaseRateForPolicy rulesW reqW.policyType = .ok 100
    ∧ ∃ q cov ag rk,
        CalculateQuote rulesW false 1 reqW = .ok q
        ∧ GetCoverageMultiplier rulesW reqW.policyType reqW.coverageAmount = .ok cov
        ∧ GetAgeMultiplier rulesW reqW.policyType reqW.customerAge = .ok ag
        ∧ GetRiskMultiplier rulesW reqW.policyType reqW.riskScore = .ok rk
        ∧ q.factors =
            { baseMultiplier := 100
              coverageMultiplier := cov
              ageMultiplier := ag
              riskMultiplier := rk
              dynamicMultiplier :=
                if false then calculateDynamicMultiplier rulesW 1 reqW else 1
              discountAmount := q.discount } :=
  ⟨by decide, by rfl, claim_C5 rulesW false 1 reqW 100 (by decide) (by rfl)⟩

/-- C6: For every policy type present in the configuration and every age in
[18, 120], the age multiplier is resolved by mapping the age to exactly one
of the five brackets 18–24, 25–34, 35–49, 50–64, 65+, then looking up that
bracket key; if the key is absent and the policy type is home and the
bracket is 18–24 or 25–34, the combined "18-34" bracket key is consulted;
if still unmatched the result is exactly 1.0.  For non-home policy types
the alternate mapping is never consulted. -/
theorem claim_C6 (rules : PricingRules) (policyType : String)
    (pr : PolicyRates) (age : Int)
    (hb : rules.baseRates.lookup policyType = some pr)
    (hage : 18 ≤ age ∧ age ≤ 120) :
    ∃ bracket, ageRangeOf age = some bracket
      ∧ (bracket = "18-24" ∨ bracket = "25-34" ∨ bracket = "35-49"
          ∨ bracket = "50-64" ∨ bracket = "65+")
      ∧ GetAgeMultiplier rules policyType age
          = .ok ((pr.ageMultiplier.lookup bracket).getD
              (if policyType = "home" ∧ (bracket = "18-24" ∨ bracket = "25-34") then
                (pr.ageMultiplier.lookup "18-34").getD 1
              else 1))
      ∧ (policyType ≠ "home" →
          GetAgeMultiplier rules policyType age
            = .ok ((pr.ageMultiplier.lookup bracket).getD 1)) := by
  obtain ⟨bracket, har, hmem⟩ :
      ∃ bracket, ageRangeOf age = some bracket
        ∧ (bracket = "18-24" ∨ bracket = "25-34" ∨ bracket = "35-49"
            ∨ bracket = "50-64" ∨ bracket = "65+") := by
    unfold ageRangeOf
    split_ifs <;> first | exact ⟨_, rfl, by simp⟩ | (exfalso; omega)
  have hval :
      ageMultiplierValue policyType pr age
        = (pr.ageMultiplier.lookup bracket).getD
            (if policyType = "home" ∧ (bracket = "18-24" ∨ bracket = "25-34") then
              (pr.ageMultiplier.lookup "18-34").getD 1
            else 1) := by
    simp only [ageMultiplierValue, har]
    rcases hlk : pr.ageMultiplier.lookup bracket with _ | m
    · by_cases hh : policyType = "home"
      · rcases hmem with rfl | rfl | rfl | rfl | rfl <;>
          simp [hh, altRanges, hlk, List.lookup]
      · rcases hmem with rfl | rfl | rfl | rfl | rfl <;>
          simp [hh, hlk]
    · simp [hlk]
  refine ⟨bracket, har, hmem, ?_, ?_⟩
  · rw [GetAgeMultiplier_eq hb age, hval]
  · intro hne
    rw [GetAgeMultiplier_eq hb age, hval]
    simp [hne]

/-- Witness for C6: a `home` request aged 30 falls in the 25–34 bracket,
whose key is absent from the table, so the combined "18-34" key applies. -/
theorem claim_C6_witness :
    rulesW.baseRates.lookup "home" = some prHome
    ∧ (18 ≤ (30 : Int) ∧ (30 : Int) ≤ 120)
    ∧ ∃ bracket, ageRangeOf 30 = some bracket
        ∧ (bracket = "18-24" ∨ bracket = "25-34" ∨ bracket = "35-49"
            ∨ bracket = "50-64" ∨ bracket = "65+")
        ∧ GetAgeMultiplier rulesW "home" 30
            = .ok ((prHome.ageMultiplier.lookup bracket).getD
                (if ("home" : String) = "home" ∧ (bracket = "18-24" ∨ bracket = "25-34") then
                  (prHome.ageMultiplier.lookup "18-34").getD 1
                else 1))
        ∧ (("home" : String) ≠ "home" →
            GetAgeMultiplier rulesW "home" 30
              = .ok ((prHome.ageMultiplier.lookup bracket).getD 1)) :=
  ⟨by decide, by decide, claim_C6 rulesW "home" prHome 30 (by decide) (by decide)⟩

/-- C8 (counterexample): two `CalculateQuote` calls with an identical
request, identical configuration snapshot, and identical feature flag, but
evaluated in different calendar quarters (months 1 and 4), disagree on the
adjusted rate — the original claim, which allows the two calls to differ in
their timestamps only, is false. -/
theorem claim_C8_counterexample :
    (CalculateQuote rulesCx true 1 reqCx).toOption.map Quote.adjustedRate
      ≠ (CalculateQuote rulesCx true 4 reqCx).toOption.map Quote.adjustedRate := by
  have hd1 : calculateDynamicMultiplier rulesCx 1 reqCx = 2 := by
    simp [calculateDynamicMultiplier, rulesCx, reqCx, getCurrentQuarter,
      getClaimsHistoryKey, List.lookup]
  have hd4 : calculateDynamicMultiplier rulesCx 4 reqCx = 1 := by
    simp [calculateDynamicMultiplier, rulesCx, reqCx, getCurrentQuarter,
      getClaimsHistoryKey, List.lookup]
  rw [@calculateQuote_ok rulesCx true 1 reqCx prCx (by decide) (by decide),
    @calculateQuote_ok rulesCx true 4 reqCx prCx (by decide) (by decide)]
  simp only [quoteValue, Except.toOption, Option.map_some, hd1, hd4]
  intro h
  have hval := Option.some.inj h
  simp [prCx, reqCx, ageMultiplierValue, ageRangeOf, altRanges, toString] at hval

/-- C8 (amended): two `CalculateQuote` calls with an identical request,
identical configuration snapshot, and identical dynamic-rates flag always
agree on the base premium; and when the two evaluation dates fall in the
same calendar quarter they agree on everything — adjusted rate, discount
and final premium included. -/
theorem claim_C8 (rules : PricingRules) (flag : Bool) (req : QuoteRequest)
    (m1 m2 : ℕ) :
    ((CalculateQuote rules flag m1 req).toOption.map Quote.baseRate
      = (CalculateQuote rules flag m2 req).toOption.map Quote.baseRate)
    ∧ (getCurrentQuarter m1 = getCurrentQuarter m2 →
        CalculateQuote rules flag m1 req = CalculateQuote rules flag m2 req) := by
  constructor
  · cases hv : validateRequest req with
    | some e =>
      rw [calculateQuote_validation_error hv, calculateQuote_validation_error hv]
    | none =>
      cases hb : rules.baseRates.lookup req.policyType with
      | none =>
        rw [calculateQuote_base_error hv hb, calculateQuote_base_error hv hb]
      | some pr =>
        rw [calculateQuote_ok hv hb, calculateQuote_ok hv hb]
        simp [quoteValue, Except.toOption]
  · intro hq
    have hd := calculateDynamicMultiplier_quarter_eq rules req m1 m2 hq
    simp only [CalculateQuote, hd]

/-- Witness for C8 (amended): months 1 and 2 lie in the same quarter, so
the two calls agree exactly. -/
theorem claim_C8_witness :
    getCurrentQuarter 1 = getCurrentQuarter 2
    ∧ CalculateQuote rulesCx true 1 reqCx = CalculateQuote rulesCx true 2 reqCx :=
  ⟨by decide, (claim_C8 rulesCx true reqCx 1 2).2 (by decide)⟩

/-- C9: `GetAllRates` is a pure projection of the configuration: it returns
exactly one entry per configured policy type, each carrying that type's
policy type, base rate and coverage-multiplier table unchanged.  (In the
embedding `CalculateQuote` is a pure function of the same configuration
value — the source method only ever reads the repository under `RLock` —
so no prior call can perturb this result.) -/
theorem claim_C9 (rules : PricingRules) :
    GetAllRates rules
      = rules.baseRates.map
          (fun p => { policyType := p.1, baseRate := p.2.base, coverage := p.2.coverage })
    ∧ (GetAllRates rules).map Rate.policyType = rules.baseRates.map Prod.fst := by
  have h := getAllRates_foldl_eq rules.baseRates []
  constructor
  · unfold GetAllRates
    rw [h]
    simp
  · unfold GetAllRates
    rw [h]
    simp

/-- C10: The claims-history field is never validated, and every count
outside {0, 1, 2} — negative counts included — is bucketed to the "3+"
key, so a request with a negative claims count is priced with the same
claims-history factor as one with three or more claims. -/
theorem claim_C10 (n : Int) :
    (n ≠ 0 → n ≠ 1 → n ≠ 2 → getClaimsHistoryKey n = "3+")
    ∧ (n < 0 → getClaimsHistoryKey n = getClaimsHistoryKey 3)
    ∧ (∀ (req : QuoteRequest) (c : Int),
        validateRequest { req with claimsHistory := c } = validateRequest req)
    ∧ (∀ (rules : PricingRules) (month : ℕ) (req : QuoteRequest), n < 0 →
        calculateDynamicMultiplier rules month { req with claimsHistory := n }
          = calculateDynamicMultiplier rules month { req with claimsHistory := 3 }) := by
  have hkey : ∀ m : Int, m ≠ 0 → m ≠ 1 → m ≠ 2 → getClaimsHistoryKey m = "3+" := by
    intro m h0 h1 h2
    simp [getClaimsHistoryKey, h0, h1, h2]
  refine ⟨hkey n, ?_, ?_, ?_⟩
  · intro hn
    rw [hkey n (by omega) (by omega) (by omega)]
    rfl
  · intro req c
    rfl
  · intro rules month req hn
    have h3 : getClaimsHistoryKey n = getClaimsHistoryKey 3 := by
      rw [hkey n (by omega) (by omega) (by omega)]
      rfl
    simp only [calculateDynamicMultiplier]
    rw [h3]

/-- Witness for C10: a claims count of −5 buckets to "3+" and prices like a
count of 3 under the enabled dynamic configuration. -/
theorem claim_C10_witness :
    getClaimsHistoryKey (-5) = "3+"
    ∧ validateRequest { reqW with claimsHistory := 99 } = validateRequest reqW
    ∧ calculateDynamicMultiplier rulesDyn 1 { reqCx with claimsHistory := -5 }
        = calculateDynamicMultiplier rulesDyn 1 { reqCx with claimsHistory := 3 } :=
  ⟨(claim_C10 (-5)).1 (by decide) (by decide) (by decide),
    (claim_C10 0).2.2.1 reqW 99,
    (claim_C10 (-5)).2.2.2 rulesDyn 1 reqCx (by decide)⟩

end MTInsurance
